import Mathlib

/-!
# Wayland registry negotiation and keyboard pipeline of bemenu

A shallow embedding of `lib/renderers/wayland/registry.c`.

* C pointers are `Option`s (`none` is `NULL`); protocol proxies are natural numbers.
* `uint32_t` values are natural numbers, reduced modulo `2^32` where the C code can wrap.
* A shift `1 << n` has the value the built code computes: the count is taken modulo 32.
* A `NULL` handed to libxkbcommon has no defined behaviour: the embedded function returns
  `none`.
* Calls into libwayland, libxkbcommon and the kernel are recorded in an effect list, in
  program order.  libxkbcommon itself is a parameter (`XkbLib`): every general theorem holds
  for every behaviour of the library.
-/

namespace Registry

/-! ## Constants of the protocol and library headers -/

/-- Reduction of a natural number to the range of `uint32_t`. -/
def u32 (n : Nat) : Nat := n % 2 ^ 32

def WL_KEYBOARD_KEYMAP_FORMAT_XKB_V1 : Nat := 1
def WL_KEYBOARD_KEY_STATE_RELEASED : Nat := 0
def WL_KEYBOARD_KEY_STATE_PRESSED : Nat := 1
def WL_SEAT_CAPABILITY_KEYBOARD : Nat := 2
def WL_SHM_FORMAT_ARGB8888 : Nat := 0
def XKB_KEYMAP_FORMAT_TEXT_V1 : Nat := 1
def XKB_KEY_NoSymbol : Nat := 0
def XKB_STATE_MODS_DEPRESSED : Nat := 1
def XKB_STATE_MODS_LATCHED : Nat := 2
def XKB_STATE_MODS_LOCKED : Nat := 4
def XKB_MOD_INVALID : Nat := 0xffffffff

/-- The version constant of the generated xdg-shell header; it only appears as the version
argument of the seat bind request. -/
def XDG_SHELL_VERSION_CURRENT : Nat := 4

def XKB_MOD_NAME_SHIFT : String := "Shift"
def XKB_MOD_NAME_CAPS : String := "Lock"
def XKB_MOD_NAME_CTRL : String := "Control"
def XKB_MOD_NAME_ALT : String := "Mod1"
def XKB_MOD_NAME_LOGO : String := "Mod4"

/-- Modelled from the spec: `enum mask` of `wayland.h`, whose last member counts the 8
logical modifiers (Shift, CapsLock, Control, Alt, Mod2, Mod3, Logo, Mod5). -/
def MASK_LAST : Nat := 8

/-- Modelled from the spec: `enum mod_bit` of `wayland.h`, one bit of the Current Modifier
Mask per logical modifier, in the order Shift, CapsLock, Control, Alt, Mod2, Mod3, Logo,
Mod5.  This is the Shift bit. -/
def MOD_SHIFT : Nat := 1 <<< 0

/-- Modelled from the spec: the CapsLock bit of `enum mod_bit`. -/
def MOD_CAPS : Nat := 1 <<< 1

/-- Modelled from the spec: the Control bit of `enum mod_bit`. -/
def MOD_CTRL : Nat := 1 <<< 2

/-- Modelled from the spec: the Alt bit of `enum mod_bit`. -/
def MOD_ALT : Nat := 1 <<< 3

/-- Modelled from the spec: the Mod2 bit of `enum mod_bit`. -/
def MOD_MOD2 : Nat := 1 <<< 4

/-- Modelled from the spec: the Mod3 bit of `enum mod_bit`. -/
def MOD_MOD3 : Nat := 1 <<< 5

/-- Modelled from the spec: the Logo bit of `enum mod_bit`. -/
def MOD_LOGO : Nat := 1 <<< 6

/-- Modelled from the spec: the Mod5 bit of `enum mod_bit`. -/
def MOD_MOD5 : Nat := 1 <<< 7

def BM_XKB_MASK_NAMES : List String :=
  [XKB_MOD_NAME_SHIFT, XKB_MOD_NAME_CAPS, XKB_MOD_NAME_CTRL, XKB_MOD_NAME_ALT,
   "Mod2", "Mod3", XKB_MOD_NAME_LOGO, "Mod5"]

def BM_XKB_MODS : List Nat :=
  [ MOD_SHIFT, MOD_CAPS, MOD_CTRL, MOD_ALT, MOD_MOD2, MOD_MOD3, MOD_LOGO, MOD_MOD5]

/-! ## libxkbcommon, as a parameter -/

/-- The functions of libxkbcommon that `registry.c` calls.  `K` is `struct xkb_keymap *`,
`S` is `struct xkb_state *`; a `none` result is a `NULL` return.  A state is mutable in C, so
`state_update_mask` returns the state after the update. -/
structure XkbLib (K S : Type) where
  keymap_new_from_string : Nat → String → Nat → Nat → Option K
  state_new : K → Option S
  keymap_mod_get_index : K → String → Nat
  state_key_get_one_sym : S → Nat → Nat
  state_update_mask : S → Nat → Nat → Nat → Nat → Nat → Nat → S
  state_serialize_mods : S → Nat → Nat

/-! ## Data model (`wayland.h`, as used by `registry.c`) -/

/-- The `struct xkb` member of `struct input`: the Layout State. -/
structure xkb (K S : Type) where
  state : Option S
  context : Nat
  keymap : Option K
  masks : List Nat
  deriving DecidableEq

/-- The `struct input`: keyboard device handle, Layout State, Current Key Event
(`sym`, `code`), Current Modifier Mask and whether the `notify.key` callback is set. -/
structure input (K S : Type) where
  keyboard : Option Nat
  xkb : xkb K S
  sym : Nat
  code : Nat
  modifiers : Nat
  notify_key : Bool
  deriving DecidableEq

/-- The `struct wayland`: the Capability Handle Table, the input state and the Supported
Pixel Format Set. -/
structure wayland (K S : Type) where
  display : Nat
  registry : Option Nat
  compositor : Option Nat
  seat : Option Nat
  xdg_shell : Option Nat
  shell : Option Nat
  shm : Option Nat
  input : input K S
  formats : Nat
  deriving DecidableEq

/-- Calls made by the keyboard handlers into the kernel, libxkbcommon, stderr and the
registered key callback. -/
inductive Effect (K S : Type) where
  | close (fd : Int)
  | mmap (size : Nat) (fd : Int)
  | munmap (map_str : String) (size : Nat)
  | stderr (msg : String)
  | keymap_unref (p : Option K)
  | state_unref (p : Option S)
  | notify_key (state sym code : Nat)
  deriving DecidableEq, Repr

/-- Requests sent to the display server through libwayland. -/
inductive Req where
  | registry_bind (id : Nat) (interface : String) (version : Nat) (proxy : Nat)
  | xdg_shell_use_unstable_version (shell : Nat) (version : Nat)
  | xdg_shell_add_listener (shell : Nat)
  | seat_add_listener (seat : Nat)
  | shm_add_listener (shm : Nat)
  | seat_get_keyboard (seat : Nat) (proxy : Nat)
  | keyboard_add_listener (keyboard : Nat)
  | keyboard_destroy (keyboard : Nat)
  | shm_destroy (shm : Nat)
  | shell_destroy (shell : Nat)
  | xdg_shell_destroy (shell : Nat)
  | compositor_destroy (compositor : Nat)
  | registry_destroy (registry : Nat)
  | registry_add_listener (registry : Nat)
  | display_roundtrip (display : Nat)
  deriving DecidableEq, Repr

/-! ## Pixel format negotiator -/

/-- The C expression `1 << n` on a 32-bit `int`, converted to `uint32_t`, as the built
code computes it: the shift instruction takes the count modulo 32, so `1 << 32` is 1 and
`1 << 31` is the sign bit.  (ISO C leaves the value open once `n` reaches 31.) -/
def shl1 (n : Nat) : Nat :=
  u32 (1 <<< (n % 32))

/-- The listener `shm_format`: `wayland->formats |= (1 << format)`. -/
def shm_format {K S : Type} (w : wayland K S) (format : Nat) : wayland K S :=
  { w with formats := u32 (w.formats ||| shl1 format) }

/-- The membership test `formats & (1 << format)` that `bm_wl_registry_register` applies
to `WL_SHM_FORMAT_ARGB8888`. -/
def supports (formats : Nat) (format : Nat) : Bool :=
  formats &&& shl1 format != 0

/-! ## Keyboard listener -/

/-- The listener `keyboard_handle_keymap`.  `data` is the listener data (`none` is
`NULL`); `mmap_ret` is what `mmap` returns if it is called (`none` is `MAP_FAILED`). -/
def keyboard_handle_keymap {K S : Type} (lib : XkbLib K S) (data : Option (input K S))
    (format : Nat) (fd : Int) (size : Nat) (mmap_ret : Option String) :
    Option (input K S) × List (Effect K S) :=
  match data with
  | none => (none, [.close fd])
  | some inp =>
    if format ≠ WL_KEYBOARD_KEYMAP_FORMAT_XKB_V1 then (some inp, [.close fd])
    else
      match mmap_ret with
      | none => (some inp, [.mmap size fd, .close fd])
      | some map_str =>
        let eff : List (Effect K S) := [.mmap size fd, .munmap map_str size, .close fd]
        match lib.keymap_new_from_string inp.xkb.context map_str XKB_KEYMAP_FORMAT_TEXT_V1 0 with
        | none => (some inp, eff ++ [.stderr "failed to compile keymap\n"])
        | some keymap =>
          match lib.state_new keymap with
          | none =>
            (some inp, eff ++ [.stderr "failed to create XKB state\n",
                               .keymap_unref (some keymap)])
          | some state =>
            (some { inp with
                      xkb := { inp.xkb with
                                 keymap := some keymap
                                 state := some state
                                 masks := BM_XKB_MASK_NAMES.map
                                   (fun name => lib.keymap_mod_get_index keymap name) } },
             eff ++ [.keymap_unref inp.xkb.keymap, .state_unref inp.xkb.state])

/-- The listener `keyboard_handle_key`. -/
def keyboard_handle_key {K S : Type} (lib : XkbLib K S) (inp : input K S)
    (key state_w : Nat) : input K S × List (Effect K S) :=
  match inp.xkb.state with
  | none => (inp, [])
  | some st =>
    let code := u32 (key + 8)
    let sym := lib.state_key_get_one_sym st code
    let inp1 : input K S :=
      { inp with
          sym := if state_w = WL_KEYBOARD_KEY_STATE_PRESSED then sym else XKB_KEY_NoSymbol
          code := if state_w = WL_KEYBOARD_KEY_STATE_PRESSED then code else 0 }
    (inp1, if inp.notify_key then [.notify_key state_w sym code] else [])

/-- The loop of `keyboard_handle_modifiers` that rebuilds the Current Modifier Mask from
the serialized raw mask and the cached table `masks`. -/
def modifiers_loop (mask : Nat) (masks : List Nat) : Nat :=
  (List.range MASK_LAST).foldl
    (fun m i => if mask &&& masks.getD i 0 ≠ 0 then m ||| BM_XKB_MODS.getD i 0 else m) 0

/-- The listener `keyboard_handle_modifiers`.  The guard is on the keymap; a `NULL` state
behind a present keymap would be handed to `xkb_state_update_mask`, which has no defined
behaviour (`none`). -/
def keyboard_handle_modifiers {K S : Type} (lib : XkbLib K S) (inp : input K S)
    (mods_depressed mods_latched mods_locked group : Nat) : Option (input K S) :=
  match inp.xkb.keymap with
  | none => some inp
  | some _ =>
    match inp.xkb.state with
    | none => none
    | some st =>
      let st1 := lib.state_update_mask st mods_depressed mods_latched mods_locked 0 0 group
      let mask := lib.state_serialize_mods st1
        (XKB_STATE_MODS_DEPRESSED ||| XKB_STATE_MODS_LATCHED)
      some { inp with
               xkb := { inp.xkb with state := some st1 }
               modifiers := modifiers_loop mask inp.xkb.masks }

/-- Events the keyboard device delivers to `keyboard_listener`. -/
inductive KbdEvent where
  | keymap (format : Nat) (fd : Int) (size : Nat) (mmap_ret : Option String)
  | enter
  | leave
  | key (key state_w : Nat)
  | modifiers (mods_depressed mods_latched mods_locked group : Nat)
  | repeat_info (rate delay : Int)

/-- Dispatch of one keyboard event through `keyboard_listener`; the listener data is the
address of the input state, never `NULL`. -/
def keyboard_dispatch {K S : Type} (lib : XkbLib K S) (inp : input K S) :
    KbdEvent → Option (input K S × List (Effect K S))
  | .keymap format fd size mmap_ret =>
    match keyboard_handle_keymap lib (some inp) format fd size mmap_ret with
    | (some inp1, eff) => some (inp1, eff)
    | (none, _) => none
  | .enter => some (inp, [])
  | .leave => some (inp, [])
  | .key key state_w => some (keyboard_handle_key lib inp key state_w)
  | .modifiers d l k g =>
    match keyboard_handle_modifiers lib inp d l k g with
    | some inp1 => some (inp1, [])
    | none => none
  | .repeat_info _ _ => some (inp, [])

/-- A sequence of keyboard events, dispatched in order. -/
def keyboard_run {K S : Type} (lib : XkbLib K S) (inp : input K S) :
    List KbdEvent → Option (input K S × List (Effect K S))
  | [] => some (inp, [])
  | ev :: evs =>
    match keyboard_dispatch lib inp ev with
    | none => none
    | some (inp1, eff) =>
      match keyboard_run lib inp1 evs with
      | none => none
      | some (inp2, eff2) => some (inp2, eff ++ eff2)

/-! ## Seat capability tracker -/

/-- The listener `seat_handle_capabilities`.  `proxy` is the keyboard proxy that
`wl_seat_get_keyboard` returns if it is called; the call is taken to succeed, as the code
takes it (the result is used unchecked). -/
def seat_handle_capabilities {K S : Type} (inp : input K S) (seat : Nat) (caps : Nat)
    (proxy : Nat) : input K S × List Req :=
  if caps &&& WL_SEAT_CAPABILITY_KEYBOARD ≠ 0 ∧ inp.keyboard = none then
    ({ inp with keyboard := some proxy },
     [.seat_get_keyboard seat proxy, .keyboard_add_listener proxy])
  else
    match inp.keyboard with
    | some kbd =>
      if ¬ (caps &&& WL_SEAT_CAPABILITY_KEYBOARD ≠ 0) then
        ({ inp with keyboard := none }, [.keyboard_destroy kbd])
      else (inp, [])
    | none => (inp, [])

/-! ## Registry negotiator -/

/-- The listener `registry_handle_global`.  `proxy` is the proxy `wl_registry_bind`
returns if it is called; binding is taken to succeed, as the code takes it. -/
def registry_handle_global {K S : Type} (w : wayland K S) (id : Nat) (interface : String)
    (proxy : Nat) : wayland K S × List Req :=
  if interface = "wl_compositor" then
    ({ w with compositor := some proxy }, [.registry_bind id "wl_compositor" 1 proxy])
  else if interface = "xdg_shell" then
    ({ w with xdg_shell := some proxy },
     [.registry_bind id "xdg_shell" 1 proxy, .xdg_shell_use_unstable_version proxy 4,
      .xdg_shell_add_listener proxy])
  else if interface = "wl_shell" then
    ({ w with shell := some proxy }, [.registry_bind id "wl_shell" 1 proxy])
  else if interface = "wl_seat" then
    ({ w with seat := some proxy },
     [.registry_bind id "wl_seat" XDG_SHELL_VERSION_CURRENT proxy, .seat_add_listener proxy])
  else if interface = "wl_shm" then
    ({ w with shm := some proxy },
     [.registry_bind id "wl_shm" 1 proxy, .shm_add_listener proxy])
  else (w, [])

/-- Events the display server delivers during a roundtrip, each with the proxy libwayland
hands back to the request its handler makes. -/
inductive Event where
  | global (id : Nat) (interface : String) (version : Nat) (proxy : Nat)
  | global_remove (name : Nat)
  | capabilities (caps : Nat) (proxy : Nat)
  | seat_name (name : String)
  | format (format : Nat)
  deriving DecidableEq, Repr

/-- Dispatch of one event to the listener registered for it.  An event of the seat or of
the shm object reaches a listener only once that object is bound: the listener is added
right after the bind. -/
def dispatch {K S : Type} (w : wayland K S) : Event → wayland K S × List Req
  | .global id interface _ proxy => registry_handle_global w id interface proxy
  | .global_remove _ => (w, [])
  | .capabilities caps proxy =>
    match w.seat with
    | none => (w, [])
    | some seat =>
      let r := seat_handle_capabilities w.input seat caps proxy
      ({ w with input := r.1 }, r.2)
  | .seat_name _ => (w, [])
  | .format format =>
    match w.shm with
    | none => (w, [])
    | some _ => (shm_format w format, [])

/-- The call `wl_display_roundtrip`: the pending events are dispatched in order. -/
def wl_display_roundtrip {K S : Type} (w : wayland K S) :
    List Event → wayland K S × List Req
  | [] => (w, [])
  | ev :: evs =>
    let r1 := dispatch w ev
    let r2 := wl_display_roundtrip r1.1 evs
    (r2.1, r1.2 ++ r2.2)

/-- The function `bm_wl_registry_destroy`.  It reads the table and writes nothing back. -/
def bm_wl_registry_destroy {K S : Type} (w : wayland K S) : wayland K S × List Req :=
  (w,
   (match w.shm with | some h => [Req.shm_destroy h] | none => []) ++
   (match w.shell with | some h => [Req.shell_destroy h] | none => []) ++
   (match w.xdg_shell with | some h => [Req.xdg_shell_destroy h] | none => []) ++
   (match w.compositor with | some h => [Req.compositor_destroy h] | none => []) ++
   (match w.registry with | some h => [Req.registry_destroy h] | none => []))

/-- The function `bm_wl_registry_register`.  `get_registry` is what
`wl_display_get_registry` returns; `trip1` holds the events the server delivers during the
first roundtrip and `trip2` those it delivers during the second, if the code reaches it. -/
def bm_wl_registry_register {K S : Type} (w : wayland K S) (get_registry : Option Nat)
    (trip1 trip2 : List Event) : Bool × wayland K S × List Req :=
  let w0 : wayland K S := { w with registry := get_registry }
  match get_registry with
  | none => (false, w0, [])
  | some registry =>
    let r1 := wl_display_roundtrip w0 trip1
    let w1 := r1.1
    let log1 := [Req.registry_add_listener registry, Req.display_roundtrip w.display] ++ r1.2
    if w1.compositor = none ∨ w1.seat = none ∨ w1.shm = none ∨
        ¬ (w1.shell ≠ none ∨ w1.xdg_shell ≠ none) then
      (false, w1, log1)
    else
      let r2 := wl_display_roundtrip w1 trip2
      let w2 := r2.1
      let log2 := log1 ++ [Req.display_roundtrip w.display] ++ r2.2
      if w2.input.keyboard = none ∨ ¬ (supports w2.formats WL_SHM_FORMAT_ARGB8888 = true) then
        (false, w2, log2)
      else (true, w2, log2)

/-- The events that reach the listeners during one call of `bm_wl_registry_register`:
none without a registry, those of the first roundtrip, and those of the second when the
mandatory set was complete after the first. -/
def delivered {K S : Type} (w : wayland K S) (get_registry : Option Nat)
    (trip1 trip2 : List Event) : List Event :=
  match get_registry with
  | none => []
  | some _ =>
    let w1 := (wl_display_roundtrip ({ w with registry := get_registry } : wayland K S) trip1).1
    if w1.compositor = none ∨ w1.seat = none ∨ w1.shm = none ∨
        ¬ (w1.shell ≠ none ∨ w1.xdg_shell ≠ none) then trip1
    else trip1 ++ trip2

/-! ## Reading an event sequence -/

/-- Whether an event advertises a global of the given interface. -/
def isGlobal (interface : String) : Event → Bool
  | .global _ i _ _ => i == interface
  | _ => false

/-- Whether a global of the given interface is advertised in the sequence. -/
def advertised (interface : String) (evs : List Event) : Bool :=
  evs.any (isGlobal interface)

/-- The capability sets of all capability notifications in the sequence. -/
def capsOf : List Event → List Nat
  | [] => []
  | .capabilities caps _ :: evs => caps :: capsOf evs
  | _ :: evs => capsOf evs

/-- The format ids of all format advertisements in the sequence. -/
def formatsOf : List Event → List Nat
  | [] => []
  | .format f :: evs => f :: formatsOf evs
  | _ :: evs => formatsOf evs

/-- The part of the sequence from the first advertisement of the given interface on. -/
def fromGlobal (interface : String) (evs : List Event) : List Event :=
  evs.dropWhile (fun ev => !isGlobal interface ev)

/-- The mandatory set: compositor, seat, shm and one of shell / extended shell. -/
def mandatorySet (evs : List Event) : Bool :=
  advertised "wl_compositor" evs && advertised "wl_seat" evs && advertised "wl_shm" evs &&
    (advertised "wl_shell" evs || advertised "xdg_shell" evs)

/-- A keyboard device is attached when the sequence ends: the last capability notification
delivered after the seat was advertised carries the keyboard bit. -/
def keyboardAttached (evs : List Event) : Bool :=
  match (capsOf (fromGlobal "wl_seat" evs)).getLast? with
  | some caps => caps &&& WL_SEAT_CAPABILITY_KEYBOARD != 0
  | none => false

/-- The format id is advertised, after the shm object was advertised, in the sequence. -/
def formatAdvertised (format : Nat) (evs : List Event) : Bool :=
  (formatsOf (fromGlobal "wl_shm" evs)).contains format

/-- Some format id with the same residue modulo 32 as the given one is advertised, after
the shm object was advertised, in the sequence. -/
def residueAdvertised (format : Nat) (evs : List Event) : Bool :=
  (formatsOf (fromGlobal "wl_shm" evs)).any (fun f => f % 32 == format % 32)

/-- Nothing is bound: the zero-initialised table, no keyboard device, no format. -/
def unbound {K S : Type} (w : wayland K S) : Prop :=
  w.registry = none ∧ w.compositor = none ∧ w.seat = none ∧ w.xdg_shell = none ∧
  w.shell = none ∧ w.shm = none ∧ w.input.keyboard = none ∧ w.formats = 0

/-- Whether a keyboard device is held after one event, given whether the seat is bound
and whether a device was held before. -/
def kbdStep (seat kbd : Bool) : Event → Bool
  | .capabilities caps _ => if seat then caps &&& WL_SEAT_CAPABILITY_KEYBOARD != 0 else kbd
  | _ => kbd

/-- Whether a keyboard device is held after a sequence of events. -/
def kbdAfter (seat kbd : Bool) : List Event → Bool
  | [] => kbd
  | ev :: evs => kbdAfter (seat || isGlobal "wl_seat" ev) (kbdStep seat kbd ev) evs

/-- Whether bit 0 of the format set is on after one event, given whether the shm object
is bound and whether the bit was on before. -/
def fmtStep (shm has : Bool) : Event → Bool
  | .format f => if shm then has || f % 32 == 0 else has
  | _ => has

/-- Whether bit 0 of the format set is on after a sequence of events. -/
def fmtAfter (shm has : Bool) : List Event → Bool
  | [] => has
  | ev :: evs => fmtAfter (shm || isGlobal "wl_shm" ev) (fmtStep shm has ev) evs

/-! ## Reading an effect list -/

/-- The descriptor an effect closes, if it is a `close`. -/
def closedFd {K S : Type} : Effect K S → Option Int
  | .close fd => some fd
  | _ => none

/-- The mapping an effect removes, if it is a `munmap`. -/
def unmapped {K S : Type} : Effect K S → Option (String × Nat)
  | .munmap map_str size => some (map_str, size)
  | _ => none

/-- The key event an effect hands to the registered callback, if it is a callback call:
state, keysym, code. -/
def notified {K S : Type} : Effect K S → Option (Nat × Nat × Nat)
  | .notify_key state sym code => some (state, sym, code)
  | _ => none

/-- A keymap event fails at some step: the format is not the XKB text format, the mapping
fails, the keymap does not compile, or no translator state can be created for it. -/
def keymap_event_fails {K S : Type} (lib : XkbLib K S) (inp : input K S) (format : Nat)
    (mmap_ret : Option String) : Bool :=
  if format ≠ WL_KEYBOARD_KEYMAP_FORMAT_XKB_V1 then true
  else
    match mmap_ret with
    | none => true
    | some map_str =>
      match lib.keymap_new_from_string inp.xkb.context map_str XKB_KEYMAP_FORMAT_TEXT_V1 0 with
      | none => true
      | some keymap => (lib.state_new keymap).isNone

/-- The number of the five slots released by `bm_wl_registry_destroy` that hold a
handle. -/
def boundCount {K S : Type} (w : wayland K S) : Nat :=
  w.shm.toList.length + w.shell.toList.length + w.xdg_shell.toList.length +
    w.compositor.toList.length + w.registry.toList.length

/-! ## A reference keyboard library and concrete inputs -/

/-- A keymap of the reference library: the modifier names in index order and the keysym
of each key code. -/
structure RefKeymap where
  id : Nat
  mods : List String
  syms : List (Nat × Nat)
  deriving DecidableEq, Repr

/-- A translator state of the reference library: its keymap and the raw modifier fields
of the last update. -/
structure RefState where
  keymap : RefKeymap
  depressed : Nat
  latched : Nat
  locked : Nat
  group : Nat
  deriving DecidableEq, Repr

/-- The usual layout: Shift at index 0, then Lock, Control, Mod1 .. Mod5; protocol code 38
yields the keysym of the letter a. -/
def pc105 : RefKeymap :=
  { id := 2
    mods := ["Shift", "Lock", "Control", "Mod1", "Mod2", "Mod3", "Mod4", "Mod5"]
    syms := [(38, 0x61)] }

/-- A layout that names Shift only. -/
def shiftOnly : RefKeymap :=
  { id := 3, mods := ["Shift"], syms := [(38, 0x61)] }

/-- A stand-in for libxkbcommon on which the embedding can be evaluated.  It compiles two
keymap texts and rejects every other; a state cannot be created for a keymap without keys;
`state_serialize_mods` is the union of the selected raw components. -/
def refLib : XkbLib RefKeymap RefState :=
  { keymap_new_from_string := fun _ text _ _ =>
      if text = "pc105" then some pc105
      else if text = "shift-only" then some shiftOnly
      else if text = "no-keys" then some { id := 4, mods := ["Shift"], syms := [] }
      else none
    state_new := fun km =>
      if km.syms = [] then none
      else some { keymap := km, depressed := 0, latched := 0, locked := 0, group := 0 }
    keymap_mod_get_index := fun km name =>
      if name ∈ km.mods then km.mods.indexOf name else XKB_MOD_INVALID
    state_key_get_one_sym := fun st code =>
      match st.keymap.syms.lookup code with
      | some sym => sym
      | none => XKB_KEY_NoSymbol
    state_update_mask := fun st d l k _ _ g =>
      { st with depressed := d, latched := l, locked := k, group := g }
    state_serialize_mods := fun st components =>
      (if components &&& XKB_STATE_MODS_DEPRESSED ≠ 0 then st.depressed else 0) |||
      (if components &&& XKB_STATE_MODS_LATCHED ≠ 0 then st.latched else 0) |||
      (if components &&& XKB_STATE_MODS_LOCKED ≠ 0 then st.locked else 0) }

/-- An input state before any keymap arrived, with a key callback registered. -/
def input0 : input RefKeymap RefState :=
  { keyboard := none
    xkb := { state := none, context := 1, keymap := none, masks := [0, 0, 0, 0, 0, 0, 0, 0] }
    sym := 0
    code := 0
    modifiers := 0
    notify_key := true }

/-- The zero-initialised `struct wayland`. -/
def wayland0 : wayland RefKeymap RefState :=
  { display := 1
    registry := none
    compositor := none
    seat := none
    xdg_shell := none
    shell := none
    shm := none
    input := input0
    formats := 0 }

/-- The input state `input0` after the layout `pc105` was compiled into it. -/
def inputPc105 : input RefKeymap RefState :=
  { input0 with
      xkb := { state := some { keymap := pc105, depressed := 0, latched := 0, locked := 0,
                               group := 0 }
               context := 1
               keymap := some pc105
               masks := [0, 1, 2, 3, 4, 5, 6, 7] } }

/-- A table after a successful negotiation with a server that offers `wl_shell`. -/
def waylandBound : wayland RefKeymap RefState :=
  { wayland0 with
      registry := some 7
      compositor := some 10
      seat := some 11
      shm := some 12
      shell := some 13 }

/-! ## Bit arithmetic -/

theorem shl1_eq (n : Nat) : shl1 n = 2 ^ (n % 32) := by
  have h : n % 32 < 32 := Nat.mod_lt n (by decide)
  have h2 : 2 ^ (n % 32) < 2 ^ 32 := Nat.pow_lt_pow_right (by decide) h
  simp only [shl1, u32, Nat.one_shiftLeft, Nat.mod_eq_of_lt h2]

theorem and_two_pow_ne_zero (y f : Nat) : (y &&& 2 ^ f != 0) = y.testBit f := by
  rw [Nat.and_two_pow]
  cases h : y.testBit f <;> simp

theorem supports_eq_testBit (formats f : Nat) :
    supports formats f = formats.testBit (f % 32) := by
  simp only [supports, shl1_eq, and_two_pow_ne_zero]

theorem testBit_u32_or (x f g : Nat) (hg : g < 32) :
    (u32 (x ||| 2 ^ f)).testBit g = (x.testBit g || decide (f = g)) := by
  simp only [u32, Nat.testBit_mod_two_pow, Nat.testBit_or, Nat.testBit_two_pow, hg,
    decide_True, Bool.true_and]

theorem u32_or_idem (x f : Nat) : u32 (u32 (x ||| 2 ^ f) ||| 2 ^ f) = u32 (x ||| 2 ^ f) := by
  apply Nat.eq_of_testBit_eq
  intro i
  simp only [u32, Nat.testBit_mod_two_pow, Nat.testBit_or, Nat.testBit_two_pow]
  cases decide (i < 32) <;> cases x.testBit i <;> cases decide (f = i) <;> rfl

/-! ## Pixel format negotiator -/

/-- C9: for every format id f and every Supported Pixel Format Set, after `shm_format` is
called with f the membership test `formats & (1 << f)` of `bm_wl_registry_register` is
non-zero for f, every format id whose test was non-zero before still passes the test, and a
second call with the same f changes nothing. -/
theorem shm_format_adds_member {K S : Type} (w : wayland K S) (f : Nat) :
    supports (shm_format w f).formats f = true ∧
    (∀ g, supports w.formats g = true → supports (shm_format w f).formats g = true) ∧
    shm_format (shm_format w f) f = shm_format w f := by
  have hlt : ∀ n : Nat, n % 32 < 32 := fun n => Nat.mod_lt n (by decide)
  refine ⟨?_, ?_, ?_⟩
  · simp [supports_eq_testBit, shm_format, shl1_eq, testBit_u32_or _ _ _ (hlt f)]
  · intro g hg
    rw [supports_eq_testBit] at hg
    simp [supports_eq_testBit, shm_format, shl1_eq, testBit_u32_or _ _ _ (hlt g), hg]
  · simp [shm_format, shl1_eq, u32_or_idem]

/-! ## Seat capability tracker -/

/-- C5: for every input state and every capability set, a second
`seat_handle_capabilities` with the same set sends no request (no keyboard device is
requested, none is destroyed) and leaves the state, the keyboard slot included, as the
first call left it. -/
theorem seat_handle_capabilities_twice {K S : Type} (inp : input K S)
    (seat caps proxy1 proxy2 : Nat) :
    seat_handle_capabilities (seat_handle_capabilities inp seat caps proxy1).1 seat caps proxy2
      = ((seat_handle_capabilities inp seat caps proxy1).1, []) := by
  unfold seat_handle_capabilities
  by_cases hc : caps &&& WL_SEAT_CAPABILITY_KEYBOARD = 0 <;>
    cases hk : inp.keyboard <;> simp [hc, hk]

/-! ## Capability handle table -/

/-- C8, as stated, fails: on a table with four bound handles the second of two calls in
succession releases all four again, and the bound seat handle 11 is released by neither
call. -/
theorem destroy_twice_releases_again :
    (bm_wl_registry_destroy (bm_wl_registry_destroy waylandBound).1).2
      = [Req.shm_destroy 12, Req.shell_destroy 13, Req.compositor_destroy 10,
         Req.registry_destroy 7] ∧
    (bm_wl_registry_destroy (bm_wl_registry_destroy waylandBound).1).2 ≠ [] ∧
    waylandBound.seat = some 11 ∧
    (bm_wl_registry_destroy waylandBound).2
      = [Req.shm_destroy 12, Req.shell_destroy 13, Req.compositor_destroy 10,
         Req.registry_destroy 7] := by
  decide

/-- C8, amended: one call of `bm_wl_registry_destroy` releases each handle bound in the
shm, shell, xdg_shell, compositor and registry slots exactly once and nothing else, releases
nothing for a slot that was never bound, and leaves the table as it was; a second call in
succession therefore sends the same releases again. -/
theorem destroy_releases_bound_once {K S : Type} (w : wayland K S) :
    (bm_wl_registry_destroy w).1 = w ∧
    (∀ h, (bm_wl_registry_destroy w).2.count (Req.shm_destroy h)
        = if w.shm = some h then 1 else 0) ∧
    (∀ h, (bm_wl_registry_destroy w).2.count (Req.shell_destroy h)
        = if w.shell = some h then 1 else 0) ∧
    (∀ h, (bm_wl_registry_destroy w).2.count (Req.xdg_shell_destroy h)
        = if w.xdg_shell = some h then 1 else 0) ∧
    (∀ h, (bm_wl_registry_destroy w).2.count (Req.compositor_destroy h)
        = if w.compositor = some h then 1 else 0) ∧
    (∀ h, (bm_wl_registry_destroy w).2.count (Req.registry_destroy h)
        = if w.registry = some h then 1 else 0) ∧
    (bm_wl_registry_destroy w).2.length = boundCount w ∧
    (bm_wl_registry_destroy (bm_wl_registry_destroy w).1).2 = (bm_wl_registry_destroy w).2 := by
  refine ⟨rfl, ?_, ?_, ?_, ?_, ?_, ?_, rfl⟩ <;>
    (simp only [bm_wl_registry_destroy, boundCount]
     cases w.shm <;> cases w.shell <;> cases w.xdg_shell <;> cases w.compositor <;>
       cases w.registry <;> simp [List.count_cons])

/-! ## Keyboard event router -/

/-- C3, as stated, fails: against the layout in which protocol code 38 maps to the keysym
of the letter a (0x61), the release of hardware key 30 hands the callback
(released, 0x61, 38), not (released, NoSymbol, 38). -/
theorem key_release_notifies_resolved_keysym :
    (keyboard_handle_key refLib inputPc105 30 WL_KEYBOARD_KEY_STATE_PRESSED).2.filterMap notified
      = [(WL_KEYBOARD_KEY_STATE_PRESSED, 0x61, 38)] ∧
    (keyboard_handle_key refLib inputPc105 30 WL_KEYBOARD_KEY_STATE_RELEASED).2.filterMap notified
      = [(WL_KEYBOARD_KEY_STATE_RELEASED, 0x61, 38)] ∧
    (keyboard_handle_key refLib inputPc105 30 WL_KEYBOARD_KEY_STATE_RELEASED).2.filterMap notified
      ≠ [(WL_KEYBOARD_KEY_STATE_RELEASED, XKB_KEY_NoSymbol, 38)] := by
  decide

/-- C3, amended: for every hardware key code k, when a translator state exists and a key
callback is registered, `keyboard_handle_key` calls the callback exactly once and does
nothing else observable: on press with (pressed, keysym resolved for k+8, k+8) and on release
with (released, keysym resolved for k+8, k+8), where k+8 is computed in `uint32_t`. -/
theorem key_notifies_once {K S : Type} (lib : XkbLib K S) (inp : input K S) (st : S)
    (k : Nat) (hst : inp.xkb.state = some st) (hcb : inp.notify_key = true) :
    (keyboard_handle_key lib inp k WL_KEYBOARD_KEY_STATE_PRESSED).2
      = [.notify_key WL_KEYBOARD_KEY_STATE_PRESSED
          (lib.state_key_get_one_sym st (u32 (k + 8))) (u32 (k + 8))] ∧
    (keyboard_handle_key lib inp k WL_KEYBOARD_KEY_STATE_RELEASED).2
      = [.notify_key WL_KEYBOARD_KEY_STATE_RELEASED
          (lib.state_key_get_one_sym st (u32 (k + 8))) (u32 (k + 8))] := by
  simp [keyboard_handle_key, hst, hcb]

/-- C3 at a concrete input: the hypotheses hold there and the theorem applies. -/
theorem key_notifies_once_witness :
    (keyboard_handle_key refLib inputPc105 30 WL_KEYBOARD_KEY_STATE_PRESSED).2
      = [.notify_key WL_KEYBOARD_KEY_STATE_PRESSED
          (refLib.state_key_get_one_sym
            { keymap := pc105, depressed := 0, latched := 0, locked := 0, group := 0 }
            (u32 (30 + 8))) (u32 (30 + 8))] ∧
    (keyboard_handle_key refLib inputPc105 30 WL_KEYBOARD_KEY_STATE_RELEASED).2
      = [.notify_key WL_KEYBOARD_KEY_STATE_RELEASED
          (refLib.state_key_get_one_sym
            { keymap := pc105, depressed := 0, latched := 0, locked := 0, group := 0 }
            (u32 (30 + 8))) (u32 (30 + 8))] :=
  key_notifies_once refLib inputPc105 _ 30 rfl rfl

/-- C4: for every hardware key code k, when a translator state exists,
`keyboard_handle_key` sets Current Key Event to (keysym resolved for k+8, k+8) on a press and
to (NoSymbol, 0) on a release, whatever it was before (k+8 computed in `uint32_t`); when none
exists the event is dropped: the whole input state, Current Key Event included, is unchanged
and no callback is called. -/
theorem key_sets_current_key_event {K S : Type} (lib : XkbLib K S) (inp : input K S)
    (k : Nat) :
    (∀ st, inp.xkb.state = some st →
      ((keyboard_handle_key lib inp k WL_KEYBOARD_KEY_STATE_PRESSED).1.sym
          = lib.state_key_get_one_sym st (u32 (k + 8)) ∧
       (keyboard_handle_key lib inp k WL_KEYBOARD_KEY_STATE_PRESSED).1.code = u32 (k + 8)) ∧
      ((keyboard_handle_key lib inp k WL_KEYBOARD_KEY_STATE_RELEASED).1.sym = XKB_KEY_NoSymbol ∧
       (keyboard_handle_key lib inp k WL_KEYBOARD_KEY_STATE_RELEASED).1.code = 0)) ∧
    (inp.xkb.state = none → ∀ state_w, keyboard_handle_key lib inp k state_w = (inp, [])) := by
  constructor
  · intro st hst
    simp [keyboard_handle_key, hst, WL_KEYBOARD_KEY_STATE_PRESSED,
      WL_KEYBOARD_KEY_STATE_RELEASED]
  · intro hst state_w
    simp [keyboard_handle_key, hst]

/-- C4 at a concrete input: the hypotheses hold there and the theorem applies. -/
theorem key_sets_current_key_event_witness :
    ((keyboard_handle_key refLib inputPc105 30 WL_KEYBOARD_KEY_STATE_PRESSED).1.sym = 0x61 ∧
     (keyboard_handle_key refLib inputPc105 30 WL_KEYBOARD_KEY_STATE_PRESSED).1.code = 38) ∧
    ((keyboard_handle_key refLib inputPc105 30 WL_KEYBOARD_KEY_STATE_RELEASED).1.sym
        = XKB_KEY_NoSymbol ∧
     (keyboard_handle_key refLib inputPc105 30 WL_KEYBOARD_KEY_STATE_RELEASED).1.code = 0) ∧
    keyboard_handle_key refLib input0 30 WL_KEYBOARD_KEY_STATE_PRESSED = (input0, []) :=
  ⟨((key_sets_current_key_event refLib inputPc105 30).1 _ rfl).1,
   ((key_sets_current_key_event refLib inputPc105 30).1 _ rfl).2,
   (key_sets_current_key_event refLib input0 30).2 rfl _⟩

/-! ## Modifier mask translator -/

/-- C2, the code at the failing input: the keymap handler caches the modifier indices
themselves (0 for Shift), not the bits at those indices, so with the layout `pc105` and the
raw state (depressed = 1, latched = 0, locked = 0, group = 0) the Current Modifier Mask is
CapsLock, Alt, Mod3 and Mod5 (170) without the Shift bit; with a layout that names Shift
only, every unresolved modifier (index `XKB_MOD_INVALID`) contributes its bit (254). -/
theorem modifiers_use_index_as_mask :
    keyboard_handle_keymap refLib (some input0) WL_KEYBOARD_KEYMAP_FORMAT_XKB_V1 5 100
        (some "pc105")
      = (some inputPc105,
         [.mmap 100 5, .munmap "pc105" 100, .close 5, .keymap_unref none, .state_unref none]) ∧
    inputPc105.xkb.masks = [0, 1, 2, 3, 4, 5, 6, 7] ∧
    (keyboard_handle_modifiers refLib inputPc105 1 0 0 0).map (fun i => i.modifiers)
      = some (MOD_CAPS ||| MOD_ALT ||| MOD_MOD3 ||| MOD_MOD5) ∧
    (keyboard_handle_modifiers refLib inputPc105 1 0 0 0).map (fun i => i.modifiers)
      ≠ some MOD_SHIFT ∧
    (keyboard_run refLib input0
        [.keymap WL_KEYBOARD_KEYMAP_FORMAT_XKB_V1 5 100 (some "shift-only"),
         .modifiers 1 0 0 0]).map (fun r => (r.1.xkb.masks, r.1.modifiers))
      = some ([0, XKB_MOD_INVALID, XKB_MOD_INVALID, XKB_MOD_INVALID, XKB_MOD_INVALID,
               XKB_MOD_INVALID, XKB_MOD_INVALID, XKB_MOD_INVALID],
              MOD_CAPS ||| MOD_CTRL ||| MOD_ALT ||| MOD_MOD2 ||| MOD_MOD3 ||| MOD_LOGO |||
                MOD_MOD5) := by
  refine ⟨?_, ?_, ?_, ?_, ?_⟩ <;> decide

/-! ## Keymap compiler -/

/-- C6: for every prior Layout State (a missing one included) and every keymap event that
fails at some step (wrong format, mapping failure, compile failure, translator-state
failure), `keyboard_handle_keymap` leaves the input state, and with it the layout, the
translator and the whole table `masks`, exactly as it was, and releases neither the old
translator (no state is released at all) nor the old layout; the keymap compiled from the
mapping is a new object, distinct from the layout held. -/
theorem keymap_failure_keeps_layout_state {K S : Type} (lib : XkbLib K S) (inp : input K S)
    (format : Nat) (fd : Int) (size : Nat) (mmap_ret : Option String)
    (hfail : keymap_event_fails lib inp format mmap_ret = true)
    (hnew : ∀ text km, mmap_ret = some text →
      lib.keymap_new_from_string inp.xkb.context text XKB_KEYMAP_FORMAT_TEXT_V1 0 = some km →
      inp.xkb.keymap ≠ some km) :
    (keyboard_handle_keymap lib (some inp) format fd size mmap_ret).1 = some inp ∧
    (∀ p, Effect.state_unref p ∉ (keyboard_handle_keymap lib (some inp) format fd size mmap_ret).2) ∧
    (∀ p, Effect.keymap_unref p ∈
        (keyboard_handle_keymap lib (some inp) format fd size mmap_ret).2 →
      ∃ text km, mmap_ret = some text ∧
        lib.keymap_new_from_string inp.xkb.context text XKB_KEYMAP_FORMAT_TEXT_V1 0 = some km ∧
        p = some km) ∧
    Effect.keymap_unref inp.xkb.keymap ∉
      (keyboard_handle_keymap lib (some inp) format fd size mmap_ret).2 := by
  unfold keymap_event_fails at hfail
  unfold keyboard_handle_keymap
  by_cases hformat : format = WL_KEYBOARD_KEYMAP_FORMAT_XKB_V1
  · cases hmap : mmap_ret with
    | none => simp [hformat]
    | some text =>
      cases hkm : lib.keymap_new_from_string inp.xkb.context text XKB_KEYMAP_FORMAT_TEXT_V1 0 with
      | none => simp [hformat, hkm]
      | some km =>
        cases hst : lib.state_new km with
        | none =>
          have hne := hnew text km hmap hkm
          simp [hformat, hkm, hst, hne]
        | some st => simp [hformat, hmap, hkm, hst] at hfail
  · simp [hformat]

/-- C6 at a concrete input: the hypotheses hold there and the theorem applies. -/
theorem keymap_failure_keeps_layout_state_witness :
    keymap_event_fails refLib inputPc105 WL_KEYBOARD_KEYMAP_FORMAT_XKB_V1 (some "no-keys") = true ∧
    (keyboard_handle_keymap refLib (some inputPc105) WL_KEYBOARD_KEYMAP_FORMAT_XKB_V1 5 100
        (some "no-keys")).1 = some inputPc105 ∧
    (∀ p, Effect.state_unref p ∉
      (keyboard_handle_keymap refLib (some inputPc105) WL_KEYBOARD_KEYMAP_FORMAT_XKB_V1 5 100
        (some "no-keys")).2) ∧
    (∀ p, Effect.keymap_unref p ∈
        (keyboard_handle_keymap refLib (some inputPc105) WL_KEYBOARD_KEYMAP_FORMAT_XKB_V1 5 100
          (some "no-keys")).2 →
      ∃ text km, some "no-keys" = some text ∧
        refLib.keymap_new_from_string inputPc105.xkb.context text XKB_KEYMAP_FORMAT_TEXT_V1 0
          = some km ∧
        p = some km) ∧
    Effect.keymap_unref inputPc105.xkb.keymap ∉
      (keyboard_handle_keymap refLib (some inputPc105) WL_KEYBOARD_KEYMAP_FORMAT_XKB_V1 5 100
        (some "no-keys")).2 :=
  ⟨by decide,
   keymap_failure_keeps_layout_state refLib inputPc105 WL_KEYBOARD_KEYMAP_FORMAT_XKB_V1 5 100
     (some "no-keys") (by decide)
     (by
       intro text km htext hkm
       cases htext
       have hk : km = { id := 4, mods := ["Shift"], syms := [] } := by
         have h4 : refLib.keymap_new_from_string inputPc105.xkb.context "no-keys"
             XKB_KEYMAP_FORMAT_TEXT_V1 0 = some { id := 4, mods := ["Shift"], syms := [] } := by
           decide
         rw [h4] at hkm
         exact (Option.some.inj hkm).symm
       subst hk
       decide)⟩

/-- C7: for every call of `keyboard_handle_keymap`, on every exit path (null listener
data, unsupported format, mapping failure, compile failure, translator-state failure,
success), the descriptor passed in is closed exactly once and no other descriptor is closed;
when the mapping was made and succeeded it is unmapped exactly once, and nothing is unmapped
otherwise. -/
theorem keymap_closes_fd_once {K S : Type} (lib : XkbLib K S) (data : Option (input K S))
    (format : Nat) (fd : Int) (size : Nat) (mmap_ret : Option String) :
    (keyboard_handle_keymap lib data format fd size mmap_ret).2.filterMap closedFd = [fd] ∧
    (keyboard_handle_keymap lib data format fd size mmap_ret).2.filterMap unmapped
      = (match data, mmap_ret with
         | some _, some map_str =>
           if format = WL_KEYBOARD_KEYMAP_FORMAT_XKB_V1 then [(map_str, size)] else []
         | _, _ => []) := by
  unfold keyboard_handle_keymap
  cases data with
  | none => simp [closedFd, unmapped]
  | some inp =>
    by_cases hformat : format = WL_KEYBOARD_KEYMAP_FORMAT_XKB_V1
    · cases mmap_ret with
      | none => simp [hformat, closedFd, unmapped]
      | some text =>
        cases hkm : lib.keymap_new_from_string inp.xkb.context text XKB_KEYMAP_FORMAT_TEXT_V1 0 with
        | none => simp [hformat, hkm, closedFd, unmapped]
        | some km =>
          cases hst : lib.state_new km <;> simp [hformat, hkm, hst, closedFd, unmapped]
    · cases mmap_ret <;> simp [hformat, closedFd, unmapped]

/-! ## Layout and translator are present together -/

theorem keyboard_dispatch_keeps_pairing {K S : Type} (lib : XkbLib K S) (inp : input K S)
    (hinv : inp.xkb.keymap.isSome = inp.xkb.state.isSome) (ev : KbdEvent) :
    ∃ inp1 eff, keyboard_dispatch lib inp ev = some (inp1, eff) ∧
      inp1.xkb.keymap.isSome = inp1.xkb.state.isSome := by
  cases ev with
  | keymap format fd size mmap_ret =>
    simp only [keyboard_dispatch, keyboard_handle_keymap]
    by_cases hformat : format = WL_KEYBOARD_KEYMAP_FORMAT_XKB_V1
    · cases mmap_ret with
      | none => simp [hformat, hinv]
      | some text =>
        cases hkm : lib.keymap_new_from_string inp.xkb.context text XKB_KEYMAP_FORMAT_TEXT_V1 0 with
        | none => simp [hformat, hkm, hinv]
        | some km => cases hst : lib.state_new km <;> simp [hformat, hkm, hst, hinv]
    · simp [hformat, hinv]
  | enter => exact ⟨inp, [], rfl, hinv⟩
  | leave => exact ⟨inp, [], rfl, hinv⟩
  | key key state_w =>
    refine ⟨_, _, rfl, ?_⟩
    simp only [keyboard_handle_key]
    cases hst : inp.xkb.state <;> simp [hinv, hst]
  | modifiers d l k g =>
    simp only [keyboard_dispatch, keyboard_handle_modifiers]
    cases hkm : inp.xkb.keymap with
    | none => simp [← hinv, hkm]
    | some km =>
      cases hst : inp.xkb.state with
      | none => simp [hkm, hst] at hinv
      | some st => simp [hkm]
  | repeat_info rate delay => exact ⟨inp, [], rfl, hinv⟩

theorem keyboard_run_keeps_pairing {K S : Type} (lib : XkbLib K S) (evs : List KbdEvent) :
    ∀ inp : input K S, inp.xkb.keymap.isSome = inp.xkb.state.isSome →
      ∃ inp1 eff, keyboard_run lib inp evs = some (inp1, eff) ∧
        inp1.xkb.keymap.isSome = inp1.xkb.state.isSome := by
  induction evs with
  | nil => intro inp hinv; exact ⟨inp, [], rfl, hinv⟩
  | cons ev evs ih =>
    intro inp hinv
    obtain ⟨inp1, eff1, h1, hinv1⟩ := keyboard_dispatch_keeps_pairing lib inp hinv ev
    obtain ⟨inp2, eff2, h2, hinv2⟩ := ih inp1 hinv1
    exact ⟨inp2, eff1 ++ eff2, by simp [keyboard_run, h1, h2], hinv2⟩

/-- C10: starting from an input state without layout and without translator state, every
sequence of keyboard events (keymap, key and modifier events among them) runs to an end,
and at that end the layout is present if and only if the translator state is present; so the
next `keyboard_handle_modifiers` never reaches the mask update with an absent translator
state (it is defined), and the next `keyboard_handle_key` drops the event when no layout
exists and, when one exists, processes it (a registered callback is called). -/
theorem layout_present_iff_translator_present {K S : Type} (lib : XkbLib K S)
    (inp : input K S) (hkm : inp.xkb.keymap = none) (hst : inp.xkb.state = none)
    (evs : List KbdEvent) :
    ∃ inp1 eff, keyboard_run lib inp evs = some (inp1, eff) ∧
      (inp1.xkb.keymap.isSome ↔ inp1.xkb.state.isSome) ∧
      (∀ d l k g, (keyboard_handle_modifiers lib inp1 d l k g).isSome) ∧
      (∀ key state_w, inp1.xkb.keymap = none →
        keyboard_handle_key lib inp1 key state_w = (inp1, [])) ∧
      (∀ key state_w, inp1.xkb.keymap ≠ none → inp1.notify_key = true →
        (keyboard_handle_key lib inp1 key state_w).2.filterMap notified ≠ []) := by
  obtain ⟨inp1, eff, hrun, hinv⟩ := keyboard_run_keeps_pairing lib evs inp (by simp [hkm, hst])
  refine ⟨inp1, eff, hrun, by rw [hinv], ?_, ?_, ?_⟩
  · intro d l k g
    simp only [keyboard_handle_modifiers]
    cases h1 : inp1.xkb.keymap with
    | none => simp
    | some km =>
      cases h2 : inp1.xkb.state with
      | none => simp [h1, h2] at hinv
      | some st => simp
  · intro key state_w h1
    have h2 : inp1.xkb.state = none := by
      cases h : inp1.xkb.state with
      | none => rfl
      | some st => simp [h1, h] at hinv
    simp [keyboard_handle_key, h2]
  · intro key state_w h1 hcb
    cases h2 : inp1.xkb.state with
    | none =>
      cases h : inp1.xkb.keymap with
      | none => exact absurd h h1
      | some km => simp [h, h2] at hinv
    | some st => simp [keyboard_handle_key, h2, hcb, notified]

/-- C10 at a concrete input: the hypotheses hold there and the theorem applies. -/
theorem layout_present_iff_translator_present_witness :
    input0.xkb.keymap = none ∧ input0.xkb.state = none ∧
    ∃ inp1 eff,
      keyboard_run refLib input0
        [.keymap WL_KEYBOARD_KEYMAP_FORMAT_XKB_V1 5 100 (some "no-keys"), .key 30 1,
         .keymap WL_KEYBOARD_KEYMAP_FORMAT_XKB_V1 6 100 (some "pc105"), .modifiers 1 0 0 0,
         .key 30 0] = some (inp1, eff) ∧
      (inp1.xkb.keymap.isSome ↔ inp1.xkb.state.isSome) ∧
      (∀ d l k g, (keyboard_handle_modifiers refLib inp1 d l k g).isSome) ∧
      (∀ key state_w, inp1.xkb.keymap = none →
        keyboard_handle_key refLib inp1 key state_w = (inp1, [])) ∧
      (∀ key state_w, inp1.xkb.keymap ≠ none → inp1.notify_key = true →
        (keyboard_handle_key refLib inp1 key state_w).2.filterMap notified ≠ []) :=
  ⟨rfl, rfl, layout_present_iff_translator_present refLib input0 rfl rfl _⟩

/-! ## Registry negotiator -/

theorem advertised_cons (interface : String) (ev : Event) (evs : List Event) :
    advertised interface (ev :: evs) = (isGlobal interface ev || advertised interface evs) := by
  simp [advertised]

theorem advertised_append (interface : String) (xs ys : List Event) :
    advertised interface (xs ++ ys) = (advertised interface xs || advertised interface ys) := by
  simp [advertised]

theorem kbdAfter_append (xs ys : List Event) :
    ∀ seat kbd, kbdAfter seat kbd (xs ++ ys)
      = kbdAfter (seat || advertised "wl_seat" xs) (kbdAfter seat kbd xs) ys := by
  induction xs with
  | nil => intro seat kbd; simp [kbdAfter, advertised]
  | cons ev xs ih =>
    intro seat kbd
    simp [kbdAfter, ih, advertised_cons, Bool.or_assoc]

theorem fmtAfter_append (xs ys : List Event) :
    ∀ shm has, fmtAfter shm has (xs ++ ys)
      = fmtAfter (shm || advertised "wl_shm" xs) (fmtAfter shm has xs) ys := by
  induction xs with
  | nil => intro shm has; simp [fmtAfter, advertised]
  | cons ev xs ih =>
    intro shm has
    simp [fmtAfter, ih, advertised_cons, Bool.or_assoc]

theorem kbdAfter_bound (evs : List Event) :
    ∀ kbd, kbdAfter true kbd evs
      = (match (capsOf evs).getLast? with
         | some caps => caps &&& WL_SEAT_CAPABILITY_KEYBOARD != 0
         | none => kbd) := by
  induction evs with
  | nil => intro kbd; rfl
  | cons ev evs ih =>
    intro kbd
    cases ev with
    | capabilities caps proxy =>
      simp only [kbdAfter, Bool.true_or, ih, kbdStep, capsOf, if_true]
      cases h : capsOf evs with
      | nil => simp
      | cons c cs =>
        obtain ⟨x, hx⟩ : ∃ x, (c :: cs).getLast? = some x :=
          ⟨_, List.getLast?_eq_getLast _ (by simp)⟩
        simp [List.getLast?_cons_cons, hx]
    | global id i v p => simp [kbdAfter, ih, kbdStep, capsOf]
    | global_remove n => simp [kbdAfter, ih, kbdStep, capsOf]
    | seat_name n => simp [kbdAfter, ih, kbdStep, capsOf]
    | format f => simp [kbdAfter, ih, kbdStep, capsOf]

theorem kbdAfter_unbound (evs : List Event) :
    kbdAfter false false evs = keyboardAttached evs := by
  induction evs with
  | nil => rfl
  | cons ev evs ih =>
    by_cases hg : isGlobal "wl_seat" ev = true
    · have hcaps : capsOf (ev :: evs) = capsOf evs := by
        cases ev <;> simp_all [isGlobal, capsOf]
      have hstep : kbdStep false false ev = false := by cases ev <;> simp [kbdStep]
      simp [kbdAfter, keyboardAttached, fromGlobal, List.dropWhile, hg, kbdAfter_bound, hcaps,
        hstep]
    · have hstep : kbdStep false false ev = false := by cases ev <;> simp [kbdStep]
      simp only [Bool.not_eq_true] at hg
      simp [kbdAfter, hg, hstep, ih, keyboardAttached, fromGlobal, List.dropWhile]

theorem fmtAfter_bound (evs : List Event) :
    ∀ has, fmtAfter true has evs = (has || (formatsOf evs).any (fun f => f % 32 == 0)) := by
  induction evs with
  | nil => intro has; simp [fmtAfter, formatsOf]
  | cons ev evs ih =>
    intro has
    cases ev with
    | format f =>
      simp only [fmtAfter, Bool.true_or, ih, fmtStep, formatsOf, if_true, List.any_cons,
        Bool.or_assoc]
    | global id i v p => simp [fmtAfter, ih, fmtStep, formatsOf]
    | global_remove n => simp [fmtAfter, ih, fmtStep, formatsOf]
    | seat_name n => simp [fmtAfter, ih, fmtStep, formatsOf]
    | capabilities c p => simp [fmtAfter, ih, fmtStep, formatsOf]

theorem fmtAfter_unbound (evs : List Event) :
    fmtAfter false false evs = residueAdvertised WL_SHM_FORMAT_ARGB8888 evs := by
  induction evs with
  | nil => rfl
  | cons ev evs ih =>
    by_cases hg : isGlobal "wl_shm" ev = true
    · have hfmts : formatsOf (ev :: evs) = formatsOf evs := by
        cases ev <;> simp_all [isGlobal, formatsOf]
      have hstep : fmtStep false false ev = false := by cases ev <;> simp [fmtStep]
      simp [fmtAfter, residueAdvertised, fromGlobal, List.dropWhile, hg, fmtAfter_bound, hfmts,
        hstep, WL_SHM_FORMAT_ARGB8888]
    · have hstep : fmtStep false false ev = false := by cases ev <;> simp [fmtStep]
      simp only [Bool.not_eq_true] at hg
      simp [fmtAfter, hg, hstep, ih, residueAdvertised, fromGlobal, List.dropWhile]

theorem dispatch_track {K S : Type} (w : wayland K S) (ev : Event) :
    (dispatch w ev).1.compositor.isSome = (w.compositor.isSome || isGlobal "wl_compositor" ev) ∧
    (dispatch w ev).1.seat.isSome = (w.seat.isSome || isGlobal "wl_seat" ev) ∧
    (dispatch w ev).1.shm.isSome = (w.shm.isSome || isGlobal "wl_shm" ev) ∧
    (dispatch w ev).1.shell.isSome = (w.shell.isSome || isGlobal "wl_shell" ev) ∧
    (dispatch w ev).1.xdg_shell.isSome = (w.xdg_shell.isSome || isGlobal "xdg_shell" ev) ∧
    (dispatch w ev).1.input.keyboard.isSome
      = kbdStep w.seat.isSome w.input.keyboard.isSome ev ∧
    (dispatch w ev).1.formats.testBit 0 = fmtStep w.shm.isSome (w.formats.testBit 0) ev := by
  cases ev with
  | global id i v p =>
    simp only [dispatch, registry_handle_global, isGlobal, kbdStep, fmtStep]
    split_ifs with h1 h2 h3 h4 h5
    · subst h1; simp
    · subst h2; simp
    · subst h3; simp
    · subst h4; simp
    · subst h5; simp
    · simp [h1, h2, h3, h4, h5]
  | global_remove n => simp [dispatch, isGlobal, kbdStep, fmtStep]
  | seat_name n => simp [dispatch, isGlobal, kbdStep, fmtStep]
  | capabilities caps proxy =>
    simp only [dispatch]
    cases hs : w.seat with
    | none => simp [isGlobal, kbdStep, fmtStep, hs]
    | some seat =>
      simp only [isGlobal, kbdStep, fmtStep, seat_handle_capabilities]
      by_cases hc : caps &&& WL_SEAT_CAPABILITY_KEYBOARD = 0 <;>
        cases hk : w.input.keyboard <;> simp [hc, hk, hs]
  | format f =>
    simp only [dispatch]
    cases hs : w.shm with
    | none => simp [isGlobal, kbdStep, fmtStep, hs]
    | some shm =>
      have hbeq : (f % 32 == 0) = decide (f % 32 = 0) := by cases f % 32 <;> rfl
      simp only [shm_format, shl1_eq, isGlobal, kbdStep, fmtStep, hs,
        testBit_u32_or _ _ _ (show 0 < 32 by decide), hbeq, Option.isSome_some,
        Bool.or_false, if_true, and_self]

theorem roundtrip_track {K S : Type} (evs : List Event) :
    ∀ w : wayland K S,
      (wl_display_roundtrip w evs).1.compositor.isSome
        = (w.compositor.isSome || advertised "wl_compositor" evs) ∧
      (wl_display_roundtrip w evs).1.seat.isSome
        = (w.seat.isSome || advertised "wl_seat" evs) ∧
      (wl_display_roundtrip w evs).1.shm.isSome
        = (w.shm.isSome || advertised "wl_shm" evs) ∧
      (wl_display_roundtrip w evs).1.shell.isSome
        = (w.shell.isSome || advertised "wl_shell" evs) ∧
      (wl_display_roundtrip w evs).1.xdg_shell.isSome
        = (w.xdg_shell.isSome || advertised "xdg_shell" evs) ∧
      (wl_display_roundtrip w evs).1.input.keyboard.isSome
        = kbdAfter w.seat.isSome w.input.keyboard.isSome evs ∧
      (wl_display_roundtrip w evs).1.formats.testBit 0
        = fmtAfter w.shm.isSome (w.formats.testBit 0) evs := by
  induction evs with
  | nil =>
    intro w
    simp [wl_display_roundtrip, advertised, kbdAfter, fmtAfter]
  | cons ev evs ih =>
    intro w
    obtain ⟨a1, a2, a3, a4, a5, a6, a7⟩ := dispatch_track w ev
    obtain ⟨b1, b2, b3, b4, b5, b6, b7⟩ := ih (dispatch w ev).1
    simp only [wl_display_roundtrip, advertised_cons, kbdAfter, fmtAfter, ← Bool.or_assoc,
      ← a1, ← a2, ← a3, ← a4, ← a5, ← a6, ← a7]
    exact ⟨b1, b2, b3, b4, b5, b6, b7⟩

theorem mandatorySet_append_left (xs ys : List Event) (h : mandatorySet xs = true) :
    mandatorySet (xs ++ ys) = true := by
  simp only [mandatorySet, advertised_append, Bool.and_eq_true, Bool.or_eq_true] at h ⊢
  obtain ⟨⟨⟨h1, h2⟩, h3⟩, h4⟩ := h
  exact ⟨⟨⟨Or.inl h1, Or.inl h2⟩, Or.inl h3⟩, h4.elim (fun h => Or.inl (Or.inl h))
    (fun h => Or.inr (Or.inl h))⟩

theorem supports_argb_eq_testBit (formats : Nat) :
    supports formats WL_SHM_FORMAT_ARGB8888 = formats.testBit 0 := by
  rw [supports_eq_testBit]
  rfl

/-- The outcome of `bm_wl_registry_register` read from the two event sequences, starting
from a table with nothing bound: it returns true exactly when the registry was obtained, the
mandatory set is advertised during the first roundtrip, a keyboard device is attached when
the second roundtrip ends, and bit 0 of the format set was turned on by then, which any
advertised format id that is a multiple of 32 does. -/
theorem register_true_iff {K S : Type} (w : wayland K S) (hw : unbound w)
    (get_registry : Option Nat) (trip1 trip2 : List Event) :
    (bm_wl_registry_register w get_registry trip1 trip2).1 = true ↔
      get_registry ≠ none ∧ mandatorySet trip1 = true ∧
      keyboardAttached (trip1 ++ trip2) = true ∧
      residueAdvertised WL_SHM_FORMAT_ARGB8888 (trip1 ++ trip2) = true := by
  obtain ⟨-, hc, hs, hx, hsh, hm, hk, hf⟩ := hw
  cases get_registry with
  | none => simp [bm_wl_registry_register]
  | some registry =>
    simp only [bm_wl_registry_register]
    generalize hw0 : ({ w with registry := some registry } : wayland K S) = w0
    have c0 : w0.compositor = none := by subst hw0; exact hc
    have s0 : w0.seat = none := by subst hw0; exact hs
    have x0 : w0.xdg_shell = none := by subst hw0; exact hx
    have l0 : w0.shell = none := by subst hw0; exact hsh
    have m0 : w0.shm = none := by subst hw0; exact hm
    have k0 : w0.input.keyboard = none := by subst hw0; exact hk
    have f0 : w0.formats = 0 := by subst hw0; exact hf
    obtain ⟨a1, a2, a3, a4, a5, a6, a7⟩ := roundtrip_track trip1 w0
    simp only [c0, s0, x0, l0, m0, k0, f0, Option.isSome_none, Bool.false_or,
      Nat.zero_testBit] at a1 a2 a3 a4 a5 a6 a7
    obtain ⟨b1, b2, b3, b4, b5, b6, b7⟩ := roundtrip_track trip2
      (wl_display_roundtrip w0 trip1).1
    generalize (wl_display_roundtrip w0 trip1) = r1 at a1 a2 a3 a4 a5 a6 a7 b1 b2 b3 b4 b5 b6 b7 ⊢
    have hkbd : (wl_display_roundtrip r1.1 trip2).1.input.keyboard.isSome
        = keyboardAttached (trip1 ++ trip2) := by
      rw [b6, a2, a6, ← kbdAfter_unbound, kbdAfter_append]
      simp
    have hfmt0 : (wl_display_roundtrip r1.1 trip2).1.formats.testBit 0
        = residueAdvertised WL_SHM_FORMAT_ARGB8888 (trip1 ++ trip2) := by
      rw [b7, a3, a7, ← fmtAfter_unbound, fmtAfter_append]
      simp
    have hmand : mandatorySet trip1
        = (r1.1.compositor.isSome && r1.1.seat.isSome && r1.1.shm.isSome &&
            (r1.1.shell.isSome || r1.1.xdg_shell.isSome)) := by
      simp only [mandatorySet, a1, a2, a3, a4, a5]
    generalize (wl_display_roundtrip r1.1 trip2) = r2 at hkbd hfmt0 ⊢
    by_cases hcheck : r1.1.compositor = none ∨ r1.1.seat = none ∨ r1.1.shm = none ∨
        ¬ (r1.1.shell ≠ none ∨ r1.1.xdg_shell ≠ none)
    · have hfalse : mandatorySet trip1 = false := by
        rw [hmand]
        rcases hcheck with h | h | h | h
        · simp [h]
        · simp [h]
        · simp [h]
        · have h1 : r1.1.shell = none := by
            by_contra hne; exact h (Or.inl hne)
          have h2 : r1.1.xdg_shell = none := by
            by_contra hne; exact h (Or.inr hne)
          simp [h1, h2]
      simp only [if_pos hcheck, hfalse]
      simp
    · have hm1 : mandatorySet trip1 = true := by
        rw [hmand]
        have h1 : r1.1.compositor ≠ none := fun h => hcheck (Or.inl h)
        have h2 : r1.1.seat ≠ none := fun h => hcheck (Or.inr (Or.inl h))
        have h3 : r1.1.shm ≠ none := fun h => hcheck (Or.inr (Or.inr (Or.inl h)))
        have h4 : r1.1.shell ≠ none ∨ r1.1.xdg_shell ≠ none := by
          by_contra h
          exact hcheck (Or.inr (Or.inr (Or.inr h)))
        have i1 := Option.ne_none_iff_isSome.mp h1
        have i2 := Option.ne_none_iff_isSome.mp h2
        have i3 := Option.ne_none_iff_isSome.mp h3
        have i4 : (r1.1.shell.isSome || r1.1.xdg_shell.isSome) = true := by
          rcases h4 with h | h
          · simp [Option.ne_none_iff_isSome.mp h]
          · simp [Option.ne_none_iff_isSome.mp h]
        simp [i1, i2, i3, i4]
      by_cases hlast : r2.1.input.keyboard = none ∨
          ¬ (supports r2.1.formats WL_SHM_FORMAT_ARGB8888 = true)
      · simp only [if_neg hcheck, if_pos hlast, hm1, ← hkbd, ← hfmt0]
        simp only [Bool.false_eq_true, false_iff]
        rintro ⟨-, -, k1, k2⟩
        rcases hlast with h | h
        · simp [h] at k1
        · exact h (by rw [supports_argb_eq_testBit]; exact k2)
      · simp only [if_neg hcheck, if_neg hlast, hm1, ← hkbd, ← hfmt0]
        simp only [not_or, not_not] at hlast
        rw [supports_argb_eq_testBit] at hlast
        simp [hlast.2, Option.ne_none_iff_isSome.mp hlast.1]

/-- The same outcome read from the events that reach the listeners: the iff of the
negotiation holds for the mandatory set and the keyboard device as stated, and the format
condition the code tests is that some delivered format id is a multiple of 32. -/
theorem register_true_iff_delivered {K S : Type} (w : wayland K S) (hw : unbound w)
    (get_registry : Option Nat) (trip1 trip2 : List Event) :
    (bm_wl_registry_register w get_registry trip1 trip2).1 = true ↔
      mandatorySet (delivered w get_registry trip1 trip2) = true ∧
      keyboardAttached (delivered w get_registry trip1 trip2) = true ∧
      residueAdvertised WL_SHM_FORMAT_ARGB8888 (delivered w get_registry trip1 trip2)
        = true := by
  rw [register_true_iff w hw]
  obtain ⟨-, hc, hs, hx, hsh, hm, -, -⟩ := hw
  cases get_registry with
  | none => simp [delivered, mandatorySet, advertised]
  | some registry =>
    simp only [delivered]
    generalize hw0 : ({ w with registry := some registry } : wayland K S) = w0
    have c0 : w0.compositor = none := by subst hw0; exact hc
    have s0 : w0.seat = none := by subst hw0; exact hs
    have x0 : w0.xdg_shell = none := by subst hw0; exact hx
    have l0 : w0.shell = none := by subst hw0; exact hsh
    have m0 : w0.shm = none := by subst hw0; exact hm
    obtain ⟨a1, a2, a3, a4, a5, -, -⟩ := roundtrip_track trip1 w0
    simp only [c0, s0, x0, l0, m0, Option.isSome_none, Bool.false_or] at a1 a2 a3 a4 a5
    generalize (wl_display_roundtrip w0 trip1).1 = w1 at a1 a2 a3 a4 a5 ⊢
    have hmand : mandatorySet trip1 = true ↔
        ¬ (w1.compositor = none ∨ w1.seat = none ∨ w1.shm = none ∨
           ¬ (w1.shell ≠ none ∨ w1.xdg_shell ≠ none)) := by
      simp only [mandatorySet, ← a1, ← a2, ← a3, ← a4, ← a5]
      cases w1.compositor <;> cases w1.seat <;> cases w1.shm <;> cases w1.shell <;>
        cases w1.xdg_shell <;> simp
    by_cases hm1 : mandatorySet trip1 = true
    · rw [if_neg (hmand.mp hm1)]
      simp [hm1, mandatorySet_append_left trip1 trip2 hm1]
    · rw [if_pos (not_not.mp (fun h => hm1 (hmand.mpr h)))]
      simp [hm1]

/-- C1, the code at the failing input: the server advertises the whole mandatory set
during the first barrier and, during the second, the keyboard capability and the single
format id 32.  Every event is delivered, the mandatory set has appeared and a keyboard
device is attached, `WL_SHM_FORMAT_ARGB8888` (id 0) is never advertised, and
`bm_wl_registry_register` returns true: `1 << 32` turns on the bit of id 0 (the format set
ends as 1). -/
theorem register_true_without_argb8888 :
    (bm_wl_registry_register wayland0 (some 7)
        [.global 1 "wl_compositor" 1 10, .global 2 "wl_seat" 1 11, .global 3 "wl_shm" 1 12,
         .global 4 "wl_shell" 1 13]
        [.capabilities 2 20, .format 32]).1 = true ∧
    (bm_wl_registry_register wayland0 (some 7)
        [.global 1 "wl_compositor" 1 10, .global 2 "wl_seat" 1 11, .global 3 "wl_shm" 1 12,
         .global 4 "wl_shell" 1 13]
        [.capabilities 2 20, .format 32]).2.1.formats = 1 ∧
    delivered wayland0 (some 7)
        [.global 1 "wl_compositor" 1 10, .global 2 "wl_seat" 1 11, .global 3 "wl_shm" 1 12,
         .global 4 "wl_shell" 1 13]
        [.capabilities 2 20, .format 32]
      = [.global 1 "wl_compositor" 1 10, .global 2 "wl_seat" 1 11, .global 3 "wl_shm" 1 12,
         .global 4 "wl_shell" 1 13, .capabilities 2 20, .format 32] ∧
    mandatorySet
        [.global 1 "wl_compositor" 1 10, .global 2 "wl_seat" 1 11, .global 3 "wl_shm" 1 12,
         .global 4 "wl_shell" 1 13, .capabilities 2 20, .format 32] = true ∧
    keyboardAttached
        [.global 1 "wl_compositor" 1 10, .global 2 "wl_seat" 1 11, .global 3 "wl_shm" 1 12,
         .global 4 "wl_shell" 1 13, .capabilities 2 20, .format 32] = true ∧
    formatsOf
        [.global 1 "wl_compositor" 1 10, .global 2 "wl_seat" 1 11, .global 3 "wl_shm" 1 12,
         .global 4 "wl_shell" 1 13, .capabilities 2 20, .format 32] = [32] ∧
    formatAdvertised WL_SHM_FORMAT_ARGB8888
        [.global 1 "wl_compositor" 1 10, .global 2 "wl_seat" 1 11, .global 3 "wl_shm" 1 12,
         .global 4 "wl_shell" 1 13, .capabilities 2 20, .format 32] = false := by
  refine ⟨?_, ?_, ?_, ?_, ?_, ?_, ?_⟩ <;> decide

end Registry
